import Mathlib

/-!
Verification of the RBAC controller (`src/homework/chapter17/rbac_controller.py`):
a shallow embedding of its data model and operations, followed by theorems
settling the specification's claims about authentication, token resolution,
permission resolution and the authorization guard.

The Python module's mutable state (the shared `MOCK_USERS_DB` dictionary whose
`User` records are mutated in place when their `permissions` field is filled)
is embedded by explicit state passing: every operation that mutates the user
dictionary returns the updated dictionary alongside its result.
-/

namespace Rbac

/-- The `Permission` enumeration (source lines 9-16). -/
inductive Permission where
  | READ_USERS
  | WRITE_USERS
  | DELETE_USERS
  | READ_PRODUCTS
  | WRITE_PRODUCTS
  | ACCESS_DEV_TOOLS
  | VIEW_LOGS
deriving DecidableEq, Repr

/-- The string value of each `Permission` member (`p.value` in the source). -/
def Permission.value : Permission → String
  | .READ_USERS => "read_users"
  | .WRITE_USERS => "write_users"
  | .DELETE_USERS => "delete_users"
  | .READ_PRODUCTS => "read_products"
  | .WRITE_PRODUCTS => "write_products"
  | .ACCESS_DEV_TOOLS => "access_dev_tools"
  | .VIEW_LOGS => "view_logs"

/-- The `Role` enumeration (source lines 19-23). -/
inductive Role where
  | ADMIN
  | USER
  | GUEST
  | DEVELOPER
deriving DecidableEq, Repr

/-- The string value of each `Role` member (`role.value` in the source). -/
def Role.value : Role → String
  | .ADMIN => "admin"
  | .USER => "user"
  | .GUEST => "guest"
  | .DEVELOPER => "developer"

/-- A role -> permission-list dictionary, kept as an association list so that
the Python `dict.get(role, [])` idiom (including its behaviour on missing
keys) is modelled faithfully. -/
abbrev RoleMap := List (Role × List Permission)

/-- `ROLE_PERMISSIONS_MAP` (source lines 26-42). -/
def ROLE_PERMISSIONS_MAP : RoleMap :=
  [ (Role.ADMIN,
      [Permission.READ_USERS, Permission.WRITE_USERS, Permission.DELETE_USERS,
       Permission.READ_PRODUCTS, Permission.WRITE_PRODUCTS,
       Permission.ACCESS_DEV_TOOLS, Permission.VIEW_LOGS]),
    (Role.USER,
      [Permission.READ_PRODUCTS, Permission.WRITE_PRODUCTS]),
    (Role.GUEST,
      [Permission.READ_PRODUCTS]),
    (Role.DEVELOPER,
      [Permission.READ_USERS, Permission.READ_PRODUCTS,
       Permission.ACCESS_DEV_TOOLS, Permission.VIEW_LOGS]) ]

/-- Key lookup in a role dictionary: Python `d.get(role)` (no default). -/
def lookupRole (m : RoleMap) (r : Role) : Option (List Permission) :=
  (m.find? (fun p => p.1 == r)).map Prod.snd

/-- Python `ROLE_PERMISSIONS_MAP.get(role, [])`: the configured list, or the
empty list when the role is not a key of the dictionary. -/
def roleMapGet (m : RoleMap) (r : Role) : List Permission :=
  (lookupRole m r).getD []

/-- The permission resolver: `ROLE_PERMISSIONS_MAP.get(role, [])` as used at
source lines 74 and 97. -/
def permissionsFor (r : Role) : List Permission :=
  roleMapGet ROLE_PERMISSIONS_MAP r

/-- The `User` pydantic model (source lines 45-49); `permissions` defaults to
the empty list and is filled at runtime from the role. -/
structure User where
  username : String
  password : String
  role : Role
  permissions : List Permission := []
deriving DecidableEq, Repr

/-- The `LoginRequest` model (source lines 52-54). -/
structure LoginRequest where
  username : String
  password : String
deriving DecidableEq, Repr

/-- The user dictionary: Python `Dict[str, User]`, as an association list. -/
abbrev Db := List (String × User)

/-- `MOCK_USERS_DB` (source lines 57-62). -/
def MOCK_USERS_DB : Db :=
  [ ("admin_user",
      { username := "admin_user", password := "admin_password", role := Role.ADMIN }),
    ("normal_user",
      { username := "normal_user", password := "user_password", role := Role.USER }),
    ("guest_user",
      { username := "guest_user", password := "guest_password", role := Role.GUEST }),
    ("developer_user",
      { username := "developer_user", password := "dev_password", role := Role.DEVELOPER }) ]

/-- Python `db.get(key)` on the user dictionary. -/
def dictGet (db : Db) (k : String) : Option User :=
  (db.find? (fun p => p.1 == k)).map Prod.snd

/-- The in-place mutation `user.permissions = ps` performed on the record that
the shared dictionary holds under key `k` (the object retrieved by `get` is
the object stored in the dictionary, so assigning to its field updates the
dictionary's record). -/
def dbSetPermissions (db : Db) (k : String) (ps : List Permission) : Db :=
  db.map (fun p => if p.1 == k then (p.1, { p.2 with permissions := ps }) else p)

/-- An `HTTPException` as raised by the source: a status code, a detail
string, and optional headers. -/
structure HTTPException where
  status_code : Nat
  detail : String
  headers : List (String × String) := []
deriving DecidableEq, Repr

/-- Python repr of a string (single-quoted), used when a list of strings is
interpolated into an f-string. `Char.ofNat 39` is the single-quote. -/
def pyQuote (s : String) : String :=
  String.singleton (Char.ofNat 39) ++ s ++ String.singleton (Char.ofNat 39)

/-- Python repr of a list of strings: `[a, b]` with single-quoted elements. -/
def pyListRepr (xs : List String) : String :=
  "[" ++ String.intercalate ", " (xs.map pyQuote) ++ "]"

/-- The detail f-string of the role denial (source line 117). -/
def roleDeniedDetail (allowed_roles : List Role) : String :=
  "Permission denied. Required roles: " ++ pyListRepr (allowed_roles.map Role.value)

/-- The detail f-string of the permission denial (source line 126). -/
def permissionDeniedDetail (required_permissions : List Permission) : String :=
  "Permission denied. Required permissions: " ++
    pyListRepr (required_permissions.map Permission.value)

/-- The 403 exception raised when the role clause fails (source lines 115-118). -/
def roleDeniedException (allowed_roles : List Role) : HTTPException :=
  { status_code := 403, detail := roleDeniedDetail allowed_roles }

/-- The 403 exception raised when the permission clause fails (source lines
124-127). -/
def permissionDeniedException (required_permissions : List Permission) : HTTPException :=
  { status_code := 403, detail := permissionDeniedDetail required_permissions }

/-- The 401 exception raised by `get_current_user` on an unresolvable token
(source lines 90-94). -/
def invalidTokenException : HTTPException :=
  { status_code := 401,
    detail := "Invalid authentication credentials",
    headers := [("WWW-Authenticate", "Bearer")] }

/-- The 401 exception raised by `login_for_access_token` on failed
authentication (source lines 143-147). -/
def authFailureException : HTTPException :=
  { status_code := 401,
    detail := "Incorrect username or password",
    headers := [("WWW-Authenticate", "Bearer")] }

deriving instance DecidableEq for Except

/-- `authenticate_user` (source lines 68-75). On success it fills the user's
`permissions` field from the role map — mutating the shared record in the
dictionary — and returns the user; the updated dictionary is returned
explicitly here. -/
def authenticate_user (db : Db) (username password : String) : Option User × Db :=
  match dictGet db username with
  | none => (none, db)
  | some user =>
    if user.password ≠ password then (none, db)
    else
      (some { user with permissions := roleMapGet ROLE_PERMISSIONS_MAP user.role },
       dbSetPermissions db username (roleMapGet ROLE_PERMISSIONS_MAP user.role))

/-- `create_access_token` (source lines 78-80): the token is the username. -/
def create_access_token (user : User) : String :=
  user.username

/-- `get_current_user` (source lines 83-98): the token is treated as a
username; an unknown token raises 401, otherwise the user's `permissions`
field is filled from its role (again mutating the shared record) and the
user is returned. -/
def get_current_user (db : Db) (token : String) : Except HTTPException User × Db :=
  match dictGet db token with
  | none => (Except.error invalidTokenException, db)
  | some user =>
    (Except.ok { user with permissions := roleMapGet ROLE_PERMISSIONS_MAP user.role },
     dbSetPermissions db token (roleMapGet ROLE_PERMISSIONS_MAP user.role))

/-- Python truthiness of an `Optional[List[...]]` argument: `None` and the
empty list are falsy, a non-empty list is truthy. -/
def truthyList {α : Type} (o : Option (List α)) : Bool :=
  match o with
  | none => false
  | some l => !l.isEmpty

/-- The access check performed by the wrapper that `rbac_required` installs
around a handler (source lines 111-129): `some e` means the wrapper raises
`e`, `none` means the wrapped handler runs. The role clause is evaluated
first; each clause is skipped when its argument is `None` or empty. -/
def rbac_required_check (allowed_roles : Option (List Role))
    (required_permissions : Option (List Permission)) (current_user : User) :
    Option HTTPException :=
  if truthyList allowed_roles = true ∧ current_user.role ∉ allowed_roles.getD [] then
    some (roleDeniedException (allowed_roles.getD []))
  else if truthyList required_permissions = true ∧
      ¬ (∀ p ∈ required_permissions.getD [], p ∈ current_user.permissions) then
    some (permissionDeniedException (required_permissions.getD []))
  else
    none

/-- `login_for_access_token` (source lines 139-149). -/
def login_for_access_token (db : Db) (form_data : LoginRequest) :
    Except HTTPException (String × String) × Db :=
  match authenticate_user db form_data.username form_data.password with
  | (none, db') => (Except.error authFailureException, db')
  | (some user, db') => (Except.ok (create_access_token user, "bearer"), db')

/-- A protected endpoint's request pipeline: resolve the bearer token via
`get_current_user`, then run the `rbac_required` check; the handler's user is
returned on allow, the raised exception otherwise (source lines 110-129
composed with the `Depends(get_current_user)` resolution). -/
def protected_call (allowed_roles : Option (List Role))
    (required_permissions : Option (List Permission)) (db : Db) (token : String) :
    Except HTTPException User × Db :=
  match get_current_user db token with
  | (Except.error e, db') => (Except.error e, db')
  | (Except.ok user, db') =>
    match rbac_required_check allowed_roles required_permissions user with
    | some e => (Except.error e, db')
    | none => (Except.ok user, db')

/-- A successful dictionary lookup returns a pair stored in the dictionary. -/
theorem dictGet_mem {db : Db} {k : String} {u : User} (h : dictGet db k = some u) :
    (k, u) ∈ db := by
  unfold dictGet at h
  obtain ⟨e, he, hu⟩ := Option.map_eq_some'.mp h
  have hm : e ∈ db := List.mem_of_find?_eq_some he
  have hp := List.find?_some he
  obtain ⟨a, b⟩ := e
  have hk : a = k := by simpa using hp
  have hb : b = u := by simpa using hu
  subst hk
  subst hb
  exact hm

/-- The record-update map of `dbSetPermissions` leaves every entry's key
unchanged, so the lookup predicate composed with it is the predicate itself. -/
theorem comp_pred_dbSet (k : String) (ps : List Permission) :
    ((fun (p : String × User) => p.1 == k) ∘
      (fun (p : String × User) =>
        if p.1 == k then (p.1, { p.2 with permissions := ps }) else p)) =
      fun (p : String × User) => p.1 == k := by
  funext p
  by_cases h : p.1 = k <;> simp [h]

/-- Filling the `permissions` field of the record stored under key `k` changes
exactly that record's `permissions` field, as seen through lookup of `k`. -/
theorem dictGet_dbSetPermissions (db : Db) (k : String) (ps : List Permission) :
    dictGet (dbSetPermissions db k ps) k =
      (dictGet db k).map (fun u => { u with permissions := ps }) := by
  unfold dictGet dbSetPermissions
  rw [List.find?_map, comp_pred_dbSet k ps]
  cases hf : db.find? (fun p => p.1 == k) with
  | none => simp
  | some e =>
    obtain ⟨a, b⟩ := e
    have hp := List.find?_some hf
    have hk : a = k := by simpa using hp
    subst hk
    simp

/-- What a successful `authenticate_user` call amounts to: a stored record
under the given username with an exactly matching password; the result is that
record with `permissions` filled from its role, and the dictionary's record is
updated accordingly. -/
theorem authenticate_user_some {db : Db} {un pw : String} {user : User} {db' : Db}
    (h : authenticate_user db un pw = (some user, db')) :
    ∃ rec, dictGet db un = some rec ∧ rec.password = pw ∧
      user = { rec with permissions := roleMapGet ROLE_PERMISSIONS_MAP rec.role } ∧
      db' = dbSetPermissions db un (roleMapGet ROLE_PERMISSIONS_MAP rec.role) := by
  unfold authenticate_user at h
  split at h
  · simp at h
  · rename_i rec hd
    split at h
    · simp at h
    · rename_i hp
      push_neg at hp
      simp only [Prod.mk.injEq, Option.some.injEq] at h
      exact ⟨rec, hd, hp, h.1.symm, h.2.symm⟩

/-- `authenticate_user` fails exactly by returning `(none, db)` with the
dictionary untouched. -/
theorem authenticate_user_none_of_unknown {db : Db} {un pw : String}
    (h : dictGet db un = none) : authenticate_user db un pw = (none, db) := by
  simp [authenticate_user, h]

/-- `authenticate_user` fails with `(none, db)` on a wrong password. -/
theorem authenticate_user_none_of_wrong_password {db : Db} {un pw : String} {rec : User}
    (hd : dictGet db un = some rec) (hp : rec.password ≠ pw) :
    authenticate_user db un pw = (none, db) := by
  simp [authenticate_user, hd, hp]

/-- `get_current_user` on a token absent from the dictionary: the 401
invalid-token exception, dictionary untouched. -/
theorem get_current_user_none {db : Db} {token : String} (h : dictGet db token = none) :
    get_current_user db token = (Except.error invalidTokenException, db) := by
  simp [get_current_user, h]

/-- Any error of `get_current_user` is the invalid-token 401, raised exactly
when the token is not a key of the dictionary. -/
theorem get_current_user_error {db : Db} {token : String} {e : HTTPException} {db' : Db}
    (h : get_current_user db token = (Except.error e, db')) :
    e = invalidTokenException ∧ db' = db ∧ dictGet db token = none := by
  unfold get_current_user at h
  split at h
  · rename_i hd
    simp only [Prod.mk.injEq, Except.error.injEq] at h
    exact ⟨h.1.symm, h.2.symm, hd⟩
  · simp at h

/-- What a successful `get_current_user` call amounts to: the token is a key
of the dictionary, and the returned user is that record with `permissions`
filled from its role. -/
theorem get_current_user_ok {db : Db} {token : String} {user : User} {db' : Db}
    (h : get_current_user db token = (Except.ok user, db')) :
    ∃ rec, dictGet db token = some rec ∧
      user = { rec with permissions := roleMapGet ROLE_PERMISSIONS_MAP rec.role } ∧
      db' = dbSetPermissions db token (roleMapGet ROLE_PERMISSIONS_MAP rec.role) := by
  unfold get_current_user at h
  split at h
  · simp at h
  · rename_i rec hd
    simp only [Prod.mk.injEq, Except.ok.injEq] at h
    exact ⟨rec, hd, h.1.symm, h.2.symm⟩

/-- The guard check allows exactly when each declared (truthy) clause is
satisfied against the user's `permissions` field. -/
theorem rbac_required_check_none_iff (ar : Option (List Role))
    (rp : Option (List Permission)) (u : User) :
    rbac_required_check ar rp u = none ↔
      ((truthyList ar = true → u.role ∈ ar.getD []) ∧
       (truthyList rp = true → ∀ p ∈ rp.getD [], p ∈ u.permissions)) := by
  unfold rbac_required_check
  by_cases h1 : truthyList ar = true ∧ u.role ∉ ar.getD []
  · rw [if_pos h1]
    exact iff_of_false (by simp) fun hc => h1.2 (hc.1 h1.1)
  · rw [if_neg h1]
    by_cases h2 : truthyList rp = true ∧ ¬ (∀ p ∈ rp.getD [], p ∈ u.permissions)
    · rw [if_pos h2]
      exact iff_of_false (by simp) fun hc => h2.2 (hc.2 h2.1)
    · rw [if_neg h2]
      push_neg at h1 h2
      exact iff_of_true rfl ⟨h1, fun ht p hp => h2 ht p hp⟩

/-- Any exception the guard check raises is one of the two 403 denials, built
from the declared requirement alone. -/
theorem rbac_required_check_some {ar : Option (List Role)} {rp : Option (List Permission)}
    {u : User} {e : HTTPException} (h : rbac_required_check ar rp u = some e) :
    e.status_code = 403 ∧
      (e = roleDeniedException (ar.getD []) ∨ e = permissionDeniedException (rp.getD [])) := by
  unfold rbac_required_check at h
  split_ifs at h
  · simp only [Option.some.injEq] at h
    subst h
    exact ⟨rfl, Or.inl rfl⟩
  · simp only [Option.some.injEq] at h
    subst h
    exact ⟨rfl, Or.inr rfl⟩

/-- Every key of `MOCK_USERS_DB` stores a record whose `username` equals the
key. -/
theorem mock_db_username {k : String} {u : User}
    (h : dictGet MOCK_USERS_DB k = some u) : u.username = k := by
  have hm := dictGet_mem h
  simp only [MOCK_USERS_DB, List.mem_cons, List.not_mem_nil, or_false,
    Prod.mk.injEq] at hm
  rcases hm with ⟨hk, hu⟩ | ⟨hk, hu⟩ | ⟨hk, hu⟩ | ⟨hk, hu⟩ <;> subst hk <;> subst hu <;> rfl

/-- The keys of `MOCK_USERS_DB`. -/
theorem mock_db_keys {k : String} {u : User} (h : dictGet MOCK_USERS_DB k = some u) :
    k = "admin_user" ∨ k = "normal_user" ∨ k = "guest_user" ∨ k = "developer_user" := by
  have hm := dictGet_mem h
  simp only [MOCK_USERS_DB, List.mem_cons, List.not_mem_nil, or_false,
    Prod.mk.injEq] at hm
  tauto

/-- A user record with its `permissions` field filled from its role, exactly
as the authentication and token-resolution steps produce it. -/
def mkFilled (name pw : String) (r : Role) : User :=
  { username := name, password := pw, role := r, permissions := permissionsFor r }

/-- C1: for every principal produced by token resolution and every access
requirement, the guard allows exactly when each declared clause holds — the
role clause when `allowed_roles` is absent or empty or contains the
principal's role, the permission clause when `required_permissions` is absent
or empty or lies within the permissions resolved from the principal's role;
in particular a requirement declaring neither clause authorizes every user
unconditionally. -/
theorem authorize_allow_iff :
    (∀ (ar : Option (List Role)) (rp : Option (List Permission)) (db : Db)
        (token : String) (user : User) (db' : Db),
        get_current_user db token = (Except.ok user, db') →
        (rbac_required_check ar rp user = none ↔
          ((truthyList ar = true → user.role ∈ ar.getD []) ∧
           (truthyList rp = true → ∀ p ∈ rp.getD [], p ∈ permissionsFor user.role)))) ∧
    (∀ u : User, rbac_required_check none none u = none) := by
  constructor
  · intro ar rp db token user db' h
    obtain ⟨rec, hd, hu, hdb⟩ := get_current_user_ok h
    have hperm : user.permissions = permissionsFor user.role := by
      subst hu
      rfl
    rw [rbac_required_check_none_iff, hperm]
  · intro u
    rw [rbac_required_check_none_iff]
    exact ⟨fun h => absurd h (by simp [truthyList]),
           fun h => absurd h (by simp [truthyList])⟩

/-- Witness for C1: the guard allows a guest principal resolved from the mock
dictionary against the requirement (roles = [GUEST], permissions =
[READ_PRODUCTS]). -/
theorem authorize_allow_iff_witness :
    rbac_required_check (some [Role.GUEST]) (some [Permission.READ_PRODUCTS])
      (mkFilled "guest_user" "guest_password" Role.GUEST) = none :=
  (authorize_allow_iff.1 (some [Role.GUEST]) (some [Permission.READ_PRODUCTS])
      MOCK_USERS_DB "guest_user" (mkFilled "guest_user" "guest_password" Role.GUEST)
      (dbSetPermissions MOCK_USERS_DB "guest_user" (permissionsFor Role.GUEST))
      (by decide)).mpr (by decide)

/-- C2 counterexample: the denial carries neither the principal's actual role
nor the missing permission subset. A guest and a developer denied by the same
role requirement receive the very same exception although their actual roles
differ, and a guest and a normal user denied by the same permission
requirement receive the very same exception although their missing subsets
differ. -/
theorem deny_reason_payload_counterexample :
    (rbac_required_check (some [Role.ADMIN]) none
        (mkFilled "guest_user" "guest_password" Role.GUEST) =
      rbac_required_check (some [Role.ADMIN]) none
        (mkFilled "developer_user" "dev_password" Role.DEVELOPER) ∧
     (mkFilled "guest_user" "guest_password" Role.GUEST).role ≠
       (mkFilled "developer_user" "dev_password" Role.DEVELOPER).role ∧
     rbac_required_check (some [Role.ADMIN]) none
        (mkFilled "guest_user" "guest_password" Role.GUEST) ≠ none) ∧
    (rbac_required_check none (some [Permission.DELETE_USERS, Permission.WRITE_PRODUCTS])
        (mkFilled "guest_user" "guest_password" Role.GUEST) =
      rbac_required_check none (some [Permission.DELETE_USERS, Permission.WRITE_PRODUCTS])
        (mkFilled "normal_user" "user_password" Role.USER) ∧
     ([Permission.DELETE_USERS, Permission.WRITE_PRODUCTS].filter
        (fun p => !((mkFilled "guest_user" "guest_password" Role.GUEST).permissions.contains p))) ≠
       ([Permission.DELETE_USERS, Permission.WRITE_PRODUCTS].filter
        (fun p => !((mkFilled "normal_user" "user_password" Role.USER).permissions.contains p))) ∧
     rbac_required_check none (some [Permission.DELETE_USERS, Permission.WRITE_PRODUCTS])
        (mkFilled "guest_user" "guest_password" Role.GUEST) ≠ none) := by
  decide

/-- C2 (amended): whenever the guard denies, the denial is built from the
declared requirement alone — a role denial is the 403 exception carrying the
required role list and a permission denial the 403 exception carrying the
required permission list; the principal's actual role and the missing
permission subset do not appear in the denial. -/
theorem deny_reason_payload :
    ∀ (ar : Option (List Role)) (rp : Option (List Permission)) (u : User)
      (e : HTTPException),
      rbac_required_check ar rp u = some e →
      (e = roleDeniedException (ar.getD []) ∨ e = permissionDeniedException (rp.getD [])) :=
  fun _ _ _ _ h => (rbac_required_check_some h).2

/-- Witness for C2 (amended): a guest denied by the admin-only role
requirement receives exactly the role-denial exception for [ADMIN]. -/
theorem deny_reason_payload_witness :
    roleDeniedException [Role.ADMIN] = roleDeniedException ((some [Role.ADMIN]).getD []) ∨
      roleDeniedException [Role.ADMIN] =
        permissionDeniedException ((none : Option (List Permission)).getD []) :=
  deny_reason_payload (some [Role.ADMIN]) none
    (mkFilled "guest_user" "guest_password" Role.GUEST)
    (roleDeniedException [Role.ADMIN]) (by decide)

/-- C3: token resolution inverts issuance. Under the program's stored-record
invariant (each record's `username` equals its dictionary key, as holds of
`MOCK_USERS_DB`), whenever an identifier authenticates successfully,
resolving the token issued for it yields a user whose identifier is exactly
the authenticated one. -/
theorem resolve_inverts_issue :
    ∀ (db : Db),
      (∀ k u, dictGet db k = some u → u.username = k) →
      ∀ (un pw : String) (user : User) (db' : Db),
        authenticate_user db un pw = (some user, db') →
        ∃ resolved db2,
          get_current_user db' (create_access_token user) = (Except.ok resolved, db2) ∧
          resolved.username = un := by
  intro db hinv un pw user db' h
  obtain ⟨rec, hd, hpw, hu, hdb⟩ := authenticate_user_some h
  have hun : rec.username = un := hinv un rec hd
  have htok : create_access_token user = un := by
    subst hu
    simpa [create_access_token] using hun
  have hlook : dictGet db' un = some user := by
    subst hdb
    rw [dictGet_dbSetPermissions, hd]
    subst hu
    rfl
  refine ⟨{ user with permissions := roleMapGet ROLE_PERMISSIONS_MAP user.role },
          dbSetPermissions db' un (roleMapGet ROLE_PERMISSIONS_MAP user.role), ?_, ?_⟩
  · rw [htok]
    simp [get_current_user, hlook]
  · subst hu
    simpa using hun

/-- Witness for C3: authenticating `admin_user` and resolving the issued
token recovers the identifier `admin_user`. -/
theorem resolve_inverts_issue_witness :
    ∃ resolved db2,
      get_current_user
          (dbSetPermissions MOCK_USERS_DB "admin_user" (permissionsFor Role.ADMIN))
          (create_access_token (mkFilled "admin_user" "admin_password" Role.ADMIN)) =
        (Except.ok resolved, db2) ∧
      resolved.username = "admin_user" :=
  resolve_inverts_issue MOCK_USERS_DB (fun _ _ h => mock_db_username h)
    "admin_user" "admin_password" (mkFilled "admin_user" "admin_password" Role.ADMIN)
    (dbSetPermissions MOCK_USERS_DB "admin_user" (permissionsFor Role.ADMIN))
    (by decide)

/-- C4: the unknown-identifier case and the wrong-credential case of login
fail with literally the same outcome — the same 401 exception and an
untouched dictionary — so the two cases are observably indistinguishable. -/
theorem auth_failure_uniform :
    ∀ (db : Db) (u1 p1 u2 p2 : String) (rec : User),
      dictGet db u1 = none → dictGet db u2 = some rec → rec.password ≠ p2 →
      (login_for_access_token db { username := u1, password := p1 } =
         login_for_access_token db { username := u2, password := p2 } ∧
       login_for_access_token db { username := u1, password := p1 } =
         (Except.error authFailureException, db)) := by
  intro db u1 p1 u2 p2 rec h1 h2 hp
  have e1 : authenticate_user db u1 p1 = (none, db) :=
    authenticate_user_none_of_unknown h1
  have e2 : authenticate_user db u2 p2 = (none, db) :=
    authenticate_user_none_of_wrong_password h2 hp
  constructor
  · simp only [login_for_access_token, e1, e2]
  · simp only [login_for_access_token, e1]

/-- Witness for C4: an unknown username and a wrong password against
`admin_user` produce identical login outcomes on the mock dictionary. -/
theorem auth_failure_uniform_witness :
    login_for_access_token MOCK_USERS_DB { username := "no_such_user", password := "x" } =
      login_for_access_token MOCK_USERS_DB
        { username := "admin_user", password := "wrong_password" } ∧
    login_for_access_token MOCK_USERS_DB { username := "no_such_user", password := "x" } =
      (Except.error authFailureException, MOCK_USERS_DB) :=
  auth_failure_uniform MOCK_USERS_DB "no_such_user" "x" "admin_user" "wrong_password"
    { username := "admin_user", password := "admin_password", role := Role.ADMIN }
    (by decide) (by decide) (by decide)

/-- C5: under the stored-record invariant, a token that no successful
authentication can ever issue fails to resolve: `get_current_user` returns
the 401 invalid-token exception — an exception distinct from the
authentication-failure one — and never a user. -/
theorem unissued_token_invalid :
    ∀ (db : Db) (token : String),
      (∀ k u, dictGet db k = some u → u.username = k) →
      (∀ (un pw : String) (user : User) (db' : Db),
          authenticate_user db un pw = (some user, db') →
          create_access_token user ≠ token) →
      (get_current_user db token = (Except.error invalidTokenException, db) ∧
       invalidTokenException ≠ authFailureException) := by
  intro db token hinv hnever
  refine ⟨?_, by decide⟩
  cases hd : dictGet db token with
  | none => exact get_current_user_none hd
  | some rec =>
    exfalso
    have hrec : rec.username = token := hinv token rec hd
    have hauth : authenticate_user db token rec.password =
        (some { rec with permissions := roleMapGet ROLE_PERMISSIONS_MAP rec.role },
         dbSetPermissions db token (roleMapGet ROLE_PERMISSIONS_MAP rec.role)) := by
      simp [authenticate_user, hd]
    exact hnever token rec.password _ _ hauth (by simpa [create_access_token] using hrec)

/-- Witness for C5: `"ghost_token"` is issued by no successful authentication
against the mock dictionary, and resolving it yields the invalid-token 401. -/
theorem unissued_token_invalid_witness :
    get_current_user MOCK_USERS_DB "ghost_token" =
      (Except.error invalidTokenException, MOCK_USERS_DB) ∧
    invalidTokenException ≠ authFailureException :=
  unissued_token_invalid MOCK_USERS_DB "ghost_token" (fun _ _ h => mock_db_username h)
    (by
      intro un pw user db' h hc
      obtain ⟨rec, hd, hpw, hu, hdb⟩ := authenticate_user_some h
      have hrec := mock_db_username hd
      have hun : user.username = un := by
        rw [hu]
        exact hrec
      simp only [create_access_token] at hc
      have hg : un = "ghost_token" := hun.symm.trans hc
      have hk := mock_db_keys hd
      rcases hk with h' | h' | h' | h' <;> rw [h'] at hg <;> exact absurd hg (by decide))

/-- C6: with both clauses declared (non-empty), the guard decides the role
clause first and short-circuits on its failure: a role outside
`allowed_roles` yields the role denial whatever the permissions, a member
role missing a required permission yields the permission denial, and allow
requires both clauses — never role membership alone. -/
theorem authorize_role_first_short_circuit :
    ∀ (ar : List Role) (rp : List Permission) (u : User),
      ar ≠ [] → rp ≠ [] →
      rbac_required_check (some ar) (some rp) u =
        (if u.role ∉ ar then some (roleDeniedException ar)
         else if ¬ (∀ p ∈ rp, p ∈ u.permissions) then some (permissionDeniedException rp)
         else none) := by
  intro ar rp u har hrp
  unfold rbac_required_check
  simp [truthyList, har, hrp]

/-- Witness for C6: an admin-role plus view-logs requirement evaluated for a
guest principal takes the role-denial branch. -/
theorem authorize_role_first_short_circuit_witness :
    rbac_required_check (some [Role.ADMIN]) (some [Permission.VIEW_LOGS])
        (mkFilled "guest_user" "guest_password" Role.GUEST) =
      (if (mkFilled "guest_user" "guest_password" Role.GUEST).role ∉ [Role.ADMIN] then
        some (roleDeniedException [Role.ADMIN])
       else if ¬ (∀ p ∈ [Permission.VIEW_LOGS],
          p ∈ (mkFilled "guest_user" "guest_password" Role.GUEST).permissions) then
        some (permissionDeniedException [Permission.VIEW_LOGS])
       else none) :=
  authorize_role_first_short_circuit [Role.ADMIN] [Permission.VIEW_LOGS]
    (mkFilled "guest_user" "guest_password" Role.GUEST) (by decide) (by decide)

/-- C7 counterexample: effective permissions ARE stored on the principal
record. Before authentication the mock dictionary's `admin_user` record has
an empty `permissions` field; authenticating writes the admin role's
non-empty permission list into that stored record, so the identity store
does not stay unchanged. -/
theorem permissions_not_stored_counterexample :
    (dictGet MOCK_USERS_DB "admin_user").map User.permissions = some [] ∧
    (authenticate_user MOCK_USERS_DB "admin_user" "admin_password").2 ≠ MOCK_USERS_DB ∧
    (dictGet (authenticate_user MOCK_USERS_DB "admin_user" "admin_password").2
        "admin_user").map User.permissions = some (permissionsFor Role.ADMIN) ∧
    permissionsFor Role.ADMIN ≠ [] := by
  decide

/-- C7 (amended): every successful `authenticate_user` or `get_current_user`
call does recompute the principal's permissions from its current role via the
role map, but then stores the recomputed list: the returned user carries
`permissionsFor` of its role, and the shared dictionary is updated at the
looked-up key with exactly that list. -/
theorem permissions_recomputed_but_stored :
    (∀ (db : Db) (un pw : String) (user : User) (db' : Db),
        authenticate_user db un pw = (some user, db') →
        user.permissions = permissionsFor user.role ∧
        db' = dbSetPermissions db un (permissionsFor user.role)) ∧
    (∀ (db : Db) (token : String) (user : User) (db' : Db),
        get_current_user db token = (Except.ok user, db') →
        user.permissions = permissionsFor user.role ∧
        db' = dbSetPermissions db token (permissionsFor user.role)) := by
  constructor
  · intro db un pw user db' h
    obtain ⟨rec, hd, hpw, hu, hdb⟩ := authenticate_user_some h
    subst hu
    exact ⟨rfl, hdb⟩
  · intro db token user db' h
    obtain ⟨rec, hd, hu, hdb⟩ := get_current_user_ok h
    subst hu
    exact ⟨rfl, hdb⟩

/-- Witness for C7 (amended): authenticating `admin_user` returns the record
with recomputed admin permissions and the dictionary updated at that key. -/
theorem permissions_recomputed_but_stored_witness :
    (mkFilled "admin_user" "admin_password" Role.ADMIN).permissions =
      permissionsFor (mkFilled "admin_user" "admin_password" Role.ADMIN).role ∧
    dbSetPermissions MOCK_USERS_DB "admin_user" (permissionsFor Role.ADMIN) =
      dbSetPermissions MOCK_USERS_DB "admin_user"
        (permissionsFor (mkFilled "admin_user" "admin_password" Role.ADMIN).role) :=
  permissions_recomputed_but_stored.1 MOCK_USERS_DB "admin_user" "admin_password"
    (mkFilled "admin_user" "admin_password" Role.ADMIN)
    (dbSetPermissions MOCK_USERS_DB "admin_user" (permissionsFor Role.ADMIN))
    (by decide)

/-- C8: the role-to-permission lookup is total and deterministic: every role
of the closed enumeration is a key of `ROLE_PERMISSIONS_MAP` and the lookup
returns its configured list; the `dict.get(role, [])` lookup returns the
empty list, never an error, for a role missing from a role map; and looking
the same role up twice yields the same list. -/
theorem permissionsFor_total :
    (∀ r : Role, ∃ ps, lookupRole ROLE_PERMISSIONS_MAP r = some ps ∧ permissionsFor r = ps) ∧
    (∀ (m : RoleMap) (r : Role), lookupRole m r = none → roleMapGet m r = []) ∧
    (∀ r : Role, permissionsFor r = permissionsFor r) := by
  refine ⟨?_, ?_, fun r => rfl⟩
  · intro r
    cases r <;> exact ⟨_, rfl, rfl⟩
  · intro m r h
    simp [roleMapGet, h]

/-- Witness for C8: a role map configuring only the admin role resolves the
unconfigured guest role to the empty list. -/
theorem permissionsFor_total_witness :
    roleMapGet [(Role.ADMIN, permissionsFor Role.ADMIN)] Role.GUEST = [] :=
  permissionsFor_total.2.1 [(Role.ADMIN, permissionsFor Role.ADMIN)] Role.GUEST (by decide)

/-- C9: at the transport boundary, authentication failure and token-resolution
failure surface as the 401 (unauthorized) exceptions, guard denials surface
as 403 (forbidden) exceptions carrying the declared requirement, and a
protected call succeeds exactly when token resolution and the guard both
pass — no error kind is converted into another kind or into success. -/
theorem transport_error_mapping :
    (∀ (db : Db) (form : LoginRequest) (e : HTTPException) (db' : Db),
        login_for_access_token db form = (Except.error e, db') →
        e = authFailureException ∧ e.status_code = 401) ∧
    (∀ (db : Db) (token : String) (e : HTTPException) (db' : Db),
        get_current_user db token = (Except.error e, db') →
        e = invalidTokenException ∧ e.status_code = 401) ∧
    (∀ (ar : Option (List Role)) (rp : Option (List Permission)) (db : Db)
        (token : String) (e : HTTPException) (db' : Db),
        protected_call ar rp db token = (Except.error e, db') →
        (e = invalidTokenException ∧ e.status_code = 401) ∨
        (e.status_code = 403 ∧
          (e = roleDeniedException (ar.getD []) ∨
           e = permissionDeniedException (rp.getD [])))) ∧
    (∀ (ar : Option (List Role)) (rp : Option (List Permission)) (db : Db)
        (token : String) (user : User) (db' : Db),
        protected_call ar rp db token = (Except.ok user, db') →
        get_current_user db token = (Except.ok user, db') ∧
        rbac_required_check ar rp user = none) := by
  refine ⟨?_, ?_, ?_, ?_⟩
  · intro db form e db' h
    unfold login_for_access_token at h
    split at h
    · simp only [Prod.mk.injEq, Except.error.injEq] at h
      exact ⟨h.1.symm, by rw [← h.1]; rfl⟩
    · simp at h
  · intro db token e db' h
    obtain ⟨he, -, -⟩ := get_current_user_error h
    exact ⟨he, by rw [he]; rfl⟩
  · intro ar rp db token e db' h
    unfold protected_call at h
    split at h
    · rename_i e0 db0 hg
      simp only [Prod.mk.injEq, Except.error.injEq] at h
      obtain ⟨he, -, -⟩ := get_current_user_error hg
      exact Or.inl ⟨h.1 ▸ he, by rw [← h.1, he]; rfl⟩
    · rename_i user0 db0 hg
      split at h
      · rename_i e1 hr
        simp only [Prod.mk.injEq, Except.error.injEq] at h
        obtain ⟨hs, hor⟩ := rbac_required_check_some hr
        exact Or.inr ⟨h.1 ▸ hs, by rw [← h.1]; exact hor⟩
      · simp at h
  · intro ar rp db token user db' h
    unfold protected_call at h
    split at h
    · simp at h
    · rename_i user0 db0 hg
      split at h
      · simp at h
      · rename_i hr
        simp only [Prod.mk.injEq, Except.ok.injEq] at h
        refine ⟨?_, ?_⟩
        · rw [← h.1, ← h.2]
          exact hg
        · rw [← h.1]
          exact hr

/-- Witness for C9: a bad login gives the 401 authentication failure; an
unknown token gives the 401 invalid-token exception; a guest calling an
admin-only endpoint gets a 403 carrying the required roles; a guest calling
a guest-allowed endpoint passes resolution and the guard. -/
theorem transport_error_mapping_witness :
    (authFailureException = authFailureException ∧
      authFailureException.status_code = 401) ∧
    (invalidTokenException = invalidTokenException ∧
      invalidTokenException.status_code = 401) ∧
    ((roleDeniedException [Role.ADMIN] = invalidTokenException ∧
        (roleDeniedException [Role.ADMIN]).status_code = 401) ∨
      ((roleDeniedException [Role.ADMIN]).status_code = 403 ∧
        (roleDeniedException [Role.ADMIN] =
            roleDeniedException ((some [Role.ADMIN]).getD []) ∨
         roleDeniedException [Role.ADMIN] =
            permissionDeniedException ((none : Option (List Permission)).getD [])))) ∧
    (get_current_user MOCK_USERS_DB "guest_user" =
        (Except.ok (mkFilled "guest_user" "guest_password" Role.GUEST),
         dbSetPermissions MOCK_USERS_DB "guest_user" (permissionsFor Role.GUEST)) ∧
      rbac_required_check (some [Role.GUEST]) none
        (mkFilled "guest_user" "guest_password" Role.GUEST) = none) :=
  ⟨transport_error_mapping.1 MOCK_USERS_DB
      { username := "no_such_user", password := "x" } authFailureException
      MOCK_USERS_DB (by decide),
   transport_error_mapping.2.1 MOCK_USERS_DB "ghost_token" invalidTokenException
      MOCK_USERS_DB (by decide),
   transport_error_mapping.2.2.1 (some [Role.ADMIN]) none MOCK_USERS_DB "guest_user"
      (roleDeniedException [Role.ADMIN])
      (dbSetPermissions MOCK_USERS_DB "guest_user" (permissionsFor Role.GUEST))
      (by decide),
   transport_error_mapping.2.2.2 (some [Role.GUEST]) none MOCK_USERS_DB "guest_user"
      (mkFilled "guest_user" "guest_password" Role.GUEST)
      (dbSetPermissions MOCK_USERS_DB "guest_user" (permissionsFor Role.GUEST))
      (by decide)⟩

/-- C10: the admin role is configured with every member of the permission
enumeration, every role's configured permission list lies within admin's,
and a principal whose permissions resolve from the admin role passes every
requirement declaring only a required-permissions clause. -/
theorem admin_has_all_permissions :
    (∀ p : Permission, p ∈ permissionsFor Role.ADMIN) ∧
    (∀ r : Role, ∀ p ∈ permissionsFor r, p ∈ permissionsFor Role.ADMIN) ∧
    (∀ (rp : List Permission) (u : User),
        u.role = Role.ADMIN → u.permissions = permissionsFor Role.ADMIN →
        rbac_required_check none (some rp) u = none) := by
  refine ⟨?_, ?_, ?_⟩
  · intro p
    cases p <;> decide
  · intro r p hp
    cases p <;> decide
  · intro rp u hrole hperm
    rw [rbac_required_check_none_iff]
    refine ⟨fun h => by simp [truthyList] at h, fun ht p hp => ?_⟩
    rw [hperm]
    cases p <;> decide

/-- Witness for C10: the user role's permissions lie within admin's, and an
admin principal passes the delete-users permission requirement. -/
theorem admin_has_all_permissions_witness :
    Permission.READ_PRODUCTS ∈ permissionsFor Role.ADMIN ∧
    rbac_required_check none (some [Permission.DELETE_USERS])
      (mkFilled "admin_user" "admin_password" Role.ADMIN) = none :=
  ⟨admin_has_all_permissions.2.1 Role.USER Permission.READ_PRODUCTS (by decide),
   admin_has_all_permissions.2.2 [Permission.DELETE_USERS]
     (mkFilled "admin_user" "admin_password" Role.ADMIN) (by decide) (by decide)⟩


end Rbac
